import Mathlib

/-!
Verification of the TG-Ecommerce-Bot order-and-payment orchestration core.

The definitions below are a shallow embedding of the TypeScript sources:
- src/commerce/crossmint/checkout.ts (product locator resolver, order builder,
  order submission retry loop, outcome classification, transaction signing,
  transaction details / pending approvals), and
- the HTTP webhook server file (wallet-created, payment-completed handlers).

Network calls and external services are modelled as explicit inputs (oracles
for the response of each request); JavaScript string and truthiness semantics
are modelled explicitly where the code relies on them.
-/

/- ===================== JavaScript string/character helpers ===================== -/

/-- Character code after lowering an ASCII uppercase letter; used to model the
case-insensitive regular-expression flag i. -/
def charLowerCode (c : Char) : Nat :=
  if 65 ≤ c.toNat ∧ c.toNat ≤ 90 then c.toNat + 32 else c.toNat

/-- Case-insensitive character equality, as under the regex i flag. -/
def charEqCI (a b : Char) : Bool :=
  charLowerCode a == charLowerCode b

/-- Membership in the regex character class [A-Z0-9] under the i flag
(letters of either case and decimal digits). -/
def isAsinChar (c : Char) : Bool :=
  (65 ≤ c.toNat && c.toNat ≤ 90) || (97 ≤ c.toNat && c.toNat ≤ 122) ||
    (48 ≤ c.toNat && c.toNat ≤ 57)

/-- JavaScript line terminators, which the regex dot does not match. -/
def isJsLineTerm (c : Char) : Bool :=
  c.toNat == 10 || c.toNat == 13 || c.toNat == 8232 || c.toNat == 8233

/-- Match a literal pattern case-insensitively at the head of a character list,
returning the remainder on success. -/
def dropLitCI : List Char → List Char → Option (List Char)
  | [], l => some l
  | _ :: _, [] => none
  | p :: ps, c :: cs => if charEqCI p c then dropLitCI ps cs else none

/-- Match [A-Z0-9]{10} (with the i flag) at the head of a character list,
returning the ten captured characters. -/
def takeAsin (l : List Char) : Option (List Char) :=
  let t := l.take 10
  if t.length == 10 && t.all isAsinChar then some t else none

/-- Whether pat occurs at the head of l (exact, case-sensitive). -/
def listStartsWith : List Char → List Char → Bool
  | _, [] => true
  | [], _ :: _ => false
  | c :: cs, p :: ps => (c == p) && listStartsWith cs ps

/-- Whether pat occurs as a contiguous segment of the second list
(exact, case-sensitive); models String.prototype.includes. -/
def listContainsSeg (pat : List Char) : List Char → Bool
  | [] => listStartsWith [] pat
  | c :: rest => listStartsWith (c :: rest) pat || listContainsSeg pat rest

/-- Models s.includes(sub) on JavaScript strings. -/
def stringContainsSeg (s sub : String) : Bool :=
  listContainsSeg sub.toList s.toList

/-- JavaScript truthiness of a possibly-absent string field: undefined and the
empty string are falsy. -/
def jsTruthyOptStr : Option String → Bool
  | none => false
  | some s => s ≠ ""

/-- JavaScript a || b where a is a possibly-absent string and b is a string:
returns b when a is undefined or empty. -/
def jsOrStr (a : Option String) (b : String) : String :=
  match a with
  | some s => if s = "" then b else s
  | none => b

/-- JavaScript a || b where both operands are possibly-absent strings. -/
def jsOrOptStr (a b : Option String) : Option String :=
  match a with
  | some s => if s = "" then b else some s
  | none => b

/-- JavaScript template interpolation of a possibly-absent string:
undefined prints as the text undefined. -/
def showJsOptStr : Option String → String
  | some s => s
  | none => "undefined"

/-- Models the Number(userId) conversion with the isNaN rejection used by the
webhook handlers, on the decimal integer strings that occur as Telegram user
ids: a nonempty all-digit string converts to its value, anything else is
rejected as NaN. (The JavaScript corner case Number of the empty string being
zero is unreachable here because the handlers reject empty strings as falsy
before converting.) -/
def jsNumericId (s : String) : Option Nat :=
  if s.toList ≠ [] ∧ s.toList.all (fun c => 48 ≤ c.toNat && c.toNat ≤ 57) then
    some (s.toList.foldl (fun n c => n * 10 + (c.toNat - 48)) 0)
  else
    none

/-- Clamp a JavaScript substring index into [0, length]. -/
def jsClampIndex (i : Int) (n : Nat) : Nat :=
  (max 0 (min i (Int.ofNat n))).toNat

/-- JavaScript String.prototype.substring with one argument: the start index is
clamped into [0, length]; in particular a negative start yields the whole
string (unlike slice, which counts from the end). -/
def jsSubstringFrom (s : String) (start : Int) : String :=
  (s.toList.drop (jsClampIndex start s.length)).asString

/-- JavaScript String.prototype.substring with two arguments: both indices are
clamped into [0, length] and swapped when out of order. -/
def jsSubstring (s : String) (a b : Int) : String :=
  let i := jsClampIndex a s.length
  let j := jsClampIndex b s.length
  ((s.toList.drop (min i j)).take (max i j - min i j)).asString

/- ===================== Product Locator Resolver (checkout.ts) ===================== -/

/-- Search for the regex /\/(?:dp|gp\/product)\/([A-Z0-9]{10})/i in a character
list, returning the captured ten-character identifier of the first match, as in
extractProductLocator (method 1) and the ASIN re-extraction in
createWalletAmazonOrder. -/
def asinSearchDpGp : List Char → Option (List Char)
  | [] => none
  | c :: rest =>
    match
      (match dropLitCI "/dp/".toList (c :: rest) with
       | some r => takeAsin r
       | none =>
         match dropLitCI "/gp/product/".toList (c :: rest) with
         | some r => takeAsin r
         | none => none) with
    | some a => some a
    | none => asinSearchDpGp rest

/-- Search for the regex /amazon\.com\/dp\/([A-Z0-9]{10})/i, as in
extractProductLocator (method 2). -/
def asinSearchAmazonDp : List Char → Option (List Char)
  | [] => none
  | c :: rest =>
    match dropLitCI "amazon.com/dp/".toList (c :: rest) with
    | some r =>
      match takeAsin r with
      | some a => some a
      | none => asinSearchAmazonDp rest
    | none => asinSearchAmazonDp rest

/-- extractProductLocator from checkout.ts: method 1 extracts an ASIN from a
/dp/ or /gp/product/ path segment and returns the locator amazon:ASIN
(the first of the listed formats is always selected); method 2 falls back to an
amazon.com/dp/ASIN pattern. Returns none when no pattern matches. -/
def extractProductLocator (amazonUrl : String) : Option String :=
  match asinSearchDpGp amazonUrl.toList with
  | some asin => some ("amazon:" ++ asin.asString)
  | none =>
    match asinSearchAmazonDp amazonUrl.toList with
    | some asin => some ("amazon:" ++ asin.asString)
    | none => none

/-- getProductLocatorVariations from checkout.ts: the ordered retry sequence of
locator formats. -/
def getProductLocatorVariations (asin amazonUrl : String) : List String :=
  ["amazon:" ++ asin,
   "amazon:https://www.amazon.com/dp/" ++ asin,
   "amazon:" ++ amazonUrl,
   asin,
   "https://www.amazon.com/dp/" ++ asin]

/-- getBestBlockchainForWallet from checkout.ts: a constant policy for now. -/
def getBestBlockchainForWallet (_walletAddress : String) : String :=
  "base-sepolia"

/-- Existence of a match of \/dp\/[A-Z0-9]{10} (with the i flag) in a character
list, where the characters skipped before the match must be matchable by the
regex dot (so no line terminators may be crossed). Used by validateAmazonUrl
for the part after amazon.com/ that the dot-star consumes. -/
def dpAsinSearch : List Char → Bool
  | [] => false
  | c :: rest =>
    (match dropLitCI "/dp/".toList (c :: rest) with
     | some r => (takeAsin r).isSome
     | none => false) ||
      (!isJsLineTerm c && dpAsinSearch rest)

/-- Scan for a match of the validateAmazonUrl regex starting at each position. -/
def validateAmazonUrlGo : List Char → Bool
  | [] => false
  | c :: rest =>
    (match dropLitCI "amazon.com/".toList (c :: rest) with
     | some r => dpAsinSearch r
     | none => false) || validateAmazonUrlGo rest

/-- validateAmazonUrl from checkout.ts: tests the URL against the regex
/amazon\.com\/.*\/dp\/[A-Z0-9]{10}/i, which requires a path segment between
amazon.com/ and the /dp/ product part. -/
def validateAmazonUrl (url : String) : Bool :=
  validateAmazonUrlGo url.toList

/- ===================== Order data model (zod schemas in checkout.ts) ===================== -/

structure PriceAmount where
  amount : String
  currency : String
deriving DecidableEq

structure QuoteCharges where
  unit : PriceAmount
  salesTax : Option PriceAmount := none
  shipping : Option PriceAmount := none
deriving DecidableEq

structure LineItemQuote where
  status : String
  charges : QuoteCharges
  totalPrice : PriceAmount
deriving DecidableEq

structure DeliveryRecipient where
  locator : String
  email : String
  walletAddress : Option String := none
deriving DecidableEq

structure LineItemDelivery where
  status : String
  recipient : DeliveryRecipient
deriving DecidableEq

structure LineItemMetadata where
  name : String
  description : String
  imageUrl : Option String := none
deriving DecidableEq

structure OrderLineItem where
  chain : String
  quantity : Nat
  metadata : Option LineItemMetadata := none
  quote : LineItemQuote
  delivery : LineItemDelivery
deriving DecidableEq

structure OrderQuote where
  status : String
  quotedAt : Option String := none
  expiresAt : Option String := none
  totalPrice : PriceAmount
deriving DecidableEq

structure PaymentPreparation where
  chain : Option String := none
  payerAddress : Option String := none
  serializedTransaction : Option String := none
deriving DecidableEq

structure OrderPayment where
  status : String
  method : String
  currency : String
  preparation : Option PaymentPreparation := none
deriving DecidableEq

structure OrderData where
  orderId : String
  phase : String
  locale : Option String := none
  lineItems : List OrderLineItem
  quote : OrderQuote
  payment : OrderPayment
deriving DecidableEq

/-- The OrderResponseSchema-validated response body of the create-order call. -/
structure OrderResponse where
  order : OrderData
  orderClientSecret : Option String := none
deriving DecidableEq

structure PhysicalAddress where
  name : String
  line1 : String
  line2 : Option String := none
  city : String
  state : Option String := none
  postalCode : String
  country : String
deriving DecidableEq

structure Recipient where
  email : String
  physicalAddress : Option PhysicalAddress := none
deriving DecidableEq

structure PaymentRequest where
  method : String
  currency : String
  payerAddress : String
  receiptEmail : Option String := none
deriving DecidableEq

structure LineItemsRequest where
  productLocator : String
deriving DecidableEq

/-- The CreateOrderRequest body posted to the orders endpoint. -/
structure CreateOrderRequest where
  recipient : Recipient
  payment : PaymentRequest
  lineItems : LineItemsRequest
deriving DecidableEq

/- ===================== Outcome classification (createWalletAmazonOrder) ===================== -/

/-- The terminal classification of a parsed order in createWalletAmazonOrder:
the three thrown error classes and the success return. -/
inductive OrderOutcome where
  | insufficientFunds
  | addressRequired
  | unsupported
  | succeeded (serializedTransaction : String)
deriving DecidableEq

/-- Outcome classification on the parsed order, checkout.ts lines 358 to 383:
first the insufficient-funds check (against the literal string
crypto-payer-insufficient-funds), then the physical-address check, then the
presence of a serialized transaction in the payment preparation (a missing or
empty transaction string is falsy and yields the unsupported outcome). -/
def classifyOrderResponse (resp : OrderResponse) : OrderOutcome :=
  if resp.order.payment.status = "crypto-payer-insufficient-funds" then
    .insufficientFunds
  else if resp.order.quote.status = "requires-physical-address" then
    .addressRequired
  else
    match resp.order.payment.preparation with
    | some prep =>
      match prep.serializedTransaction with
      | some tx => if tx = "" then .unsupported else .succeeded tx
      | none => .unsupported
    | none => .unsupported

/- ===================== Order submission retry loop (createOrderWithRetry) ===================== -/

/-- What one create-order attempt can throw: an axios error (HTTP-level
rejection, carrying optional response status and message), a ZodError from
OrderResponseSchema.parse on a structurally invalid 2xx body, or any other
thrown value. Only the first kind satisfies axios.isAxiosError. -/
inductive PostErr where
  | httpError (status : Option Nat) (message : Option String)
  | invalidShape
  | otherFailure
deriving DecidableEq

/-- The outcome of one create-order attempt (the awaited post followed by
schema validation). -/
inductive PostResult where
  | ok (body : OrderResponse)
  | err (e : PostErr)
deriving DecidableEq

/-- message?.includes of the product-not-found marker: an absent message is
falsy. -/
def msgHasProductNotFound : Option String → Bool
  | some m => stringContainsSeg m "Product not found"
  | none => false

/-- Whether the retry loop continues after an error, checkout.ts lines 266 to
283: an axios error continues only in the product-not-found class (status 400
and a message containing Product not found); any error that is not an axios
error (including a schema violation) records the last error and continues. -/
def errContinues : PostErr → Bool
  | .httpError status message => (status == some 400) && msgHasProductNotFound message
  | .invalidShape => true
  | .otherFailure => true

/-- Whether an attempt result lets the loop move on to the next candidate. -/
def postContinues : PostResult → Bool
  | .ok _ => false
  | .err e => errContinues e

/-- Replace the line-item locator of the order request for the current attempt. -/
def withLocator (req : CreateOrderRequest) (locator : String) : CreateOrderRequest :=
  { req with lineItems := { productLocator := locator } }

/-- The result of createOrderWithRetry: a parsed success, an error rethrown
from inside the loop (fail-fast), or exhaustion of all candidates with the last
recorded error thrown (none when the candidate list was empty). -/
inductive RetryOutcome where
  | success (body : OrderResponse)
  | thrown (e : PostErr)
  | exhausted (lastError : Option PostErr)
deriving DecidableEq

/-- The createOrderWithRetry loop, instrumented with the list of create-order
requests actually posted. The post oracle gives the outcome of each request.
Returns the loop result together with the requests issued, in order. -/
def createOrderRetryTrace (post : CreateOrderRequest → PostResult)
    (req : CreateOrderRequest) :
    Option PostErr → List String → RetryOutcome × List CreateOrderRequest
  | lastError, [] => (.exhausted lastError, [])
  | _, locator :: rest =>
    match post (withLocator req locator) with
    | .ok body => (.success body, [withLocator req locator])
    | .err e =>
      if errContinues e then
        let r := createOrderRetryTrace post req (some e) rest
        (r.1, withLocator req locator :: r.2)
      else
        (.thrown e, [withLocator req locator])

/-- createOrderWithRetry from checkout.ts: iterate the locator variations in
order with lastError initially null. -/
def createOrderWithRetry (post : CreateOrderRequest → PostResult)
    (req : CreateOrderRequest) (productLocatorVariations : List String) :
    RetryOutcome :=
  (createOrderRetryTrace post req none productLocatorVariations).1

/-- The create-order requests actually issued by createOrderWithRetry. -/
def createOrderRequestsIssued (post : CreateOrderRequest → PostResult)
    (req : CreateOrderRequest) (productLocatorVariations : List String) :
    List CreateOrderRequest :=
  (createOrderRetryTrace post req none productLocatorVariations).2

/- ===================== Order builder phase (createWalletAmazonOrder, before network) ===================== -/

structure AmazonProduct where
  title : String
  price : String
  amazonUrl : String
  imageUrl : Option String := none
  description : Option String := none
deriving DecidableEq

/-- The error classes thrown by createWalletAmazonOrder before any network
request is made, in source order. -/
inductive BuildError where
  | locatorExtractionFailed
  | asinExtractionFailed
  | nonUsAddress
  | missingState
deriving DecidableEq

/-- Whether a build error is one of the two address-rejection errors. -/
def BuildError.isAddressRejection : BuildError → Bool
  | .nonUsAddress => true
  | .missingState => true
  | _ => false

/-- The pre-network phase of createWalletAmazonOrder either fails with a thrown
error or proceeds to the network loop with a built request and the locator
variations. A proceed value is the point where the first create-order request
is issued. -/
inductive BuildStep where
  | fail (e : BuildError)
  | proceed (req : CreateOrderRequest) (variations : List String)
deriving DecidableEq

/-- createWalletAmazonOrder, checkout.ts lines 294 to 354, up to the call of
createOrderWithRetry: locator extraction, ASIN re-extraction, the US-only
country check, the state check (an absent or empty state is falsy), then the
request assembly and the hand-off to the retry loop. -/
def orderBuildPhase (product : AmazonProduct) (userEmail walletAddress : String)
    (shippingAddress : PhysicalAddress) : BuildStep :=
  match extractProductLocator product.amazonUrl with
  | none => .fail .locatorExtractionFailed
  | some productLocator =>
    match asinSearchDpGp product.amazonUrl.toList with
    | none => .fail .asinExtractionFailed
    | some asinChars =>
      if shippingAddress.country ≠ "US" then .fail .nonUsAddress
      else if !jsTruthyOptStr shippingAddress.state then .fail .missingState
      else
        .proceed
          { recipient := { email := userEmail, physicalAddress := some shippingAddress }
          , payment :=
              { method := getBestBlockchainForWallet walletAddress
              , currency := "usdc"
              , payerAddress := walletAddress
              , receiptEmail := some userEmail }
          , lineItems := { productLocator := productLocator } }
          (getProductLocatorVariations asinChars.asString product.amazonUrl)

/- ===================== Transaction signing (signOrderTransaction) ===================== -/

/-- The response body of the wallet-transaction endpoint as the code reads it:
id, transactionId, status for the success path, message for the error path. -/
structure WalletTxData where
  id : Option String := none
  transactionId : Option String := none
  status : Option String := none
  message : Option String := none
deriving DecidableEq

/-- The outcome of the single axios post in signOrderTransaction: either the
server produced a response (any status; axios resolves exactly for 2xx and
rejects otherwise, attaching the response to the error), or the request failed
at the network level with no response. -/
inductive HttpOutcome where
  | response (status : Nat) (statusText : String) (data : WalletTxData)
  | networkFailure (message : String)
deriving DecidableEq

/-- The value returned by signOrderTransaction. -/
structure SignTransactionResult where
  success : Bool
  transactionId : Option String := none
  status : Option String := none
  transactionData : Option WalletTxData := none
  error : Option String := none
deriving DecidableEq

/-- signOrderTransaction from checkout.ts, lines 468 to 565: a total function
of the HTTP outcome (the try/catch returns a value on every path, so nothing
escapes the boundary). Statuses 200 and 201 yield success with the embedded
transaction data (id falling back to transactionId under JavaScript or); any
other 2xx status yields a structured failure; a non-2xx status makes axios
reject and the catch builds a failure from data.message or the status text; a
network failure yields a failure with the error message. -/
def signOrderTransaction (outcome : HttpOutcome) : SignTransactionResult :=
  match outcome with
  | .response st stText data =>
    if 200 ≤ st ∧ st < 300 then
      if st = 200 ∨ st = 201 then
        { success := true
        , transactionId := jsOrOptStr data.id data.transactionId
        , status := data.status
        , transactionData := some data }
      else
        { success := false
        , error := some ("Transaction failed with status: " ++ toString st) }
    else
      { success := false
      , error := some ("Transaction signing failed: " ++ jsOrStr data.message stText) }
  | .networkFailure msg =>
    { success := false, error := some ("Network error: " ++ msg) }

/-- Whether the HTTP outcome is one the code classifies as request-accepted. -/
def httpOutcomeAccepted : HttpOutcome → Bool
  | .response st _ _ => st == 200 || st == 201
  | .networkFailure _ => false

/- ===================== Transaction details (getTransactionDetails) ===================== -/

/-- One entry of the pending-approvals list: the challenge message to sign and
the signer locator. -/
structure PendingApprovalEntry where
  message : String
  signer : String
deriving DecidableEq

/-- The approvals object of a fetched transaction; the pending list may be
absent. -/
structure TxApprovals where
  pending : Option (List PendingApprovalEntry) := none
deriving DecidableEq

/-- A fetched transaction as getTransactionDetails reads it. -/
structure TransactionDetailsData where
  status : Option String := none
  approvals : Option TxApprovals := none
deriving DecidableEq

/-- The effective pending-approvals list: empty when the approvals object or
its pending field is absent (both are falsy in the guard). -/
def txPendingList (t : TransactionDetailsData) : List PendingApprovalEntry :=
  match t.approvals with
  | some a => a.pending.getD []
  | none => []

/-- The two shapes of the getTransactionDetails result on a fetched
transaction: pending-approval data extracted, or a non-fatal informational
result carrying the current status (the transaction itself is returned in both
cases). -/
inductive TransactionDetailsResult where
  | pendingApprovalInfo (transaction : TransactionDetailsData)
      (pendingMessage : String) (signerLocator : String)
  | notAwaiting (transaction : TransactionDetailsData) (error : String)
deriving DecidableEq

/-- getTransactionDetails, checkout.ts lines 664 to 691, on a successfully
fetched transaction: when status is exactly awaiting-approval and the
pending-approvals list is nonempty, the first entry is extracted; otherwise an
informational result reports the current status. -/
def classifyTransactionDetails (t : TransactionDetailsData) :
    TransactionDetailsResult :=
  if t.status = some "awaiting-approval" then
    match txPendingList t with
    | entry :: _ => .pendingApprovalInfo t entry.message entry.signer
    | [] =>
      .notAwaiting t
        ("Transaction is not awaiting approval. Current status: " ++ showJsOptStr t.status)
  else
    .notAwaiting t
      ("Transaction is not awaiting approval. Current status: " ++ showJsOptStr t.status)

/- ===================== Webhook server state (HTTP server file) ===================== -/

/-- Modelled from the spec: the wallet-service auth record written by
crossmintWalletService.updateUserAuth (the wallet service source file is not
part of src/, only its callers are); the spec describes session storage as
key-value lookup and mutation by user identifier, last write wins. -/
structure WalletAuthData where
  crossmintUserId : String
  walletAddress : String
  authToken : Option String := none
  email : Option String := none
deriving DecidableEq

/-- The walletInfo extension the webhook handlers attach to user memory:
the wallet-created handler writes the first six fields; the payment-completed
handler later updates the top-up and balance fields. -/
structure WalletInfo where
  address : String
  crossmintUserId : String
  email : Option String := none
  authToken : Option String := none
  createdAt : Nat := 0
  isVerified : Bool := true
  lastTopUpAmount : Option String := none
  lastTopUpAt : Option Nat := none
  lastVerifiedBalance : Option String := none
  lastBalanceCheck : Option Nat := none
deriving DecidableEq

/-- Modelled from the spec: the per-user session memory record (the memory
utility source file is not part of src/); only the walletInfo extension that
the webhook handlers read and write is represented. -/
structure UserMemory where
  walletInfo : Option WalletInfo := none
deriving DecidableEq

/-- The per-user session state shared by the webhook handlers: the
wallet-service auth records and the session memory, both keyed by the numeric
user identifier. -/
structure BotSessionState where
  walletAuth : Nat → Option WalletAuthData
  memory : Nat → Option UserMemory

/-- The request body of the wallet-created webhook. -/
structure WalletCreatedBody where
  userId : Option String := none
  walletAddress : Option String := none
  crossmintUserId : Option String := none
  email : Option String := none
  authToken : Option String := none
deriving DecidableEq

/-- The user notifications the handlers send via the chat transport, at the
level of which template is used with which data (message formatting is
abstracted; the wallet-created template carries the displayed address string
verbatim). -/
inductive BotNotification where
  | walletCreated (userId : Nat) (displayedAddress : String)
  | paymentVerified (userId : Nat) (amount currency usdcBalance transactionId : String)
  | paymentFallback (userId : Nat) (amount currency transactionId : String)
deriving DecidableEq

/-- The parts of the webhook JSON responses the claims are about. -/
structure WebhookHttpResponse where
  status : Nat
  success : Bool
  maskedWalletAddress : Option String := none
deriving DecidableEq

/-- The wallet-address display string built by the wallet-created handler for
both the response field and the chat notification:
walletAddress.substring(0, 8) + "..." + walletAddress.substring(-6). -/
def maskedWalletAddress (walletAddress : String) : String :=
  jsSubstring walletAddress 0 8 ++ "..." ++ jsSubstringFrom walletAddress (-6)

/-- The state mutation of the wallet-created handler for a validated request:
update the wallet-service auth record for the user, then, when a session memory
record exists for the user, attach the walletInfo extension to it. -/
def walletCreatedStateUpdate (uid : Nat) (wd : WalletAuthData) (wi : WalletInfo)
    (s : BotSessionState) : BotSessionState :=
  { walletAuth := Function.update s.walletAuth uid (some wd)
  , memory :=
      match s.memory uid with
      | some m => Function.update s.memory uid (some { m with walletInfo := some wi })
      | none => s.memory }

/-- The full outcome of one wallet-created webhook delivery. -/
structure WalletCreatedOutcome where
  state : BotSessionState
  response : WebhookHttpResponse
  notifications : List BotNotification

/-- The wallet-created webhook handler from the HTTP server file, lines 55 to
137: reject with 400 when userId, walletAddress or crossmintUserId is missing
(falsy) or when userId does not convert to a number, before any state
mutation; otherwise update the wallet service and the session memory, notify
the user, and answer 200 with the masked address. The delivery timestamp (the
Date.now() value stored as createdAt) is an explicit parameter. -/
def walletCreatedHandler (body : WalletCreatedBody) (now : Nat)
    (s : BotSessionState) : WalletCreatedOutcome :=
  if !(jsTruthyOptStr body.userId && jsTruthyOptStr body.walletAddress &&
        jsTruthyOptStr body.crossmintUserId) then
    { state := s, response := { status := 400, success := false }, notifications := [] }
  else
    match jsNumericId (body.userId.getD "") with
    | none =>
      { state := s, response := { status := 400, success := false }, notifications := [] }
    | some numericUserId =>
      { state :=
          walletCreatedStateUpdate numericUserId
            { crossmintUserId := body.crossmintUserId.getD ""
            , walletAddress := body.walletAddress.getD ""
            , authToken := body.authToken
            , email := body.email }
            { address := body.walletAddress.getD ""
            , crossmintUserId := body.crossmintUserId.getD ""
            , email := body.email
            , authToken := body.authToken
            , createdAt := now
            , isVerified := true }
            s
      , response :=
          { status := 200
          , success := true
          , maskedWalletAddress := some (maskedWalletAddress (body.walletAddress.getD "")) }
      , notifications :=
          [.walletCreated numericUserId (maskedWalletAddress (body.walletAddress.getD ""))] }

/- ===================== Payment-completed webhook handler ===================== -/

/-- The request body of the payment-completed webhook. -/
structure PaymentCompletedBody where
  sessionId : Option String := none
  amount : Option String := none
  currency : Option String := none
  transactionId : Option String := none
  userId : Option Nat := none
deriving DecidableEq

structure WalletBalanceEntry where
  currency : String
  amount : String
deriving DecidableEq

structure WalletBalanceData where
  balances : List WalletBalanceEntry
deriving DecidableEq

/-- Modelled from the spec: the outcome of the best-effort balance fetch
crossmintWalletService.getWalletBalance (the wallet service source file is not
part of src/): the awaited call either resolves (possibly with a falsy value)
or throws. -/
inductive BalanceFetchOutcome where
  | resolved (data : Option WalletBalanceData)
  | threw (message : String)
deriving DecidableEq

/-- Whether the balance lookup is unresolvable: it failed or returned nothing. -/
def balanceUnresolvable : BalanceFetchOutcome → Bool
  | .resolved none => true
  | .resolved (some _) => false
  | .threw _ => true

/-- The USDC balance string extracted from fetched balance data:
balances.find of currency USDC, then amount, with fallback 0.00 under
JavaScript or. -/
def usdcBalanceOf (d : WalletBalanceData) : String :=
  jsOrStr ((d.balances.find? (fun b => b.currency == "USDC")).map (fun b => b.amount)) "0.00"

/-- The full outcome of one payment-completed webhook delivery. -/
structure PaymentCompletedOutcome where
  memory : Nat → Option UserMemory
  response : WebhookHttpResponse
  notifications : List BotNotification

/-- The payment-completed webhook handler from the HTTP server file, lines 179
to 271: reject with 400 when sessionId, amount or transactionId is falsy; when
a truthy userId is present and the session memory for it has walletInfo,
attempt the balance fetch: a resolved truthy balance yields the verified
notification and stores the verified balance, while a falsy result or a thrown
error yields the fallback notification (storing only the top-up fields); in
all validated cases the response is 200 with success true. -/
def paymentCompletedHandler (body : PaymentCompletedBody)
    (balanceOutcome : BalanceFetchOutcome) (now : Nat)
    (memory : Nat → Option UserMemory) : PaymentCompletedOutcome :=
  if !(jsTruthyOptStr body.sessionId && jsTruthyOptStr body.amount &&
        jsTruthyOptStr body.transactionId) then
    { memory := memory, response := { status := 400, success := false }, notifications := [] }
  else
    match body.userId with
    | some uid =>
      if uid = 0 then
        { memory := memory, response := { status := 200, success := true }, notifications := [] }
      else
        match memory uid with
        | some m =>
          match m.walletInfo with
          | some wi =>
            match balanceOutcome with
            | .resolved (some data) =>
              let wiVerified : WalletInfo :=
                { wi with
                    lastTopUpAmount := some (body.amount.getD "")
                  , lastTopUpAt := some now
                  , lastVerifiedBalance := some (usdcBalanceOf data)
                  , lastBalanceCheck := some now }
              { memory := Function.update memory uid (some { m with walletInfo := some wiVerified })
              , response := { status := 200, success := true }
              , notifications :=
                  [.paymentVerified uid (body.amount.getD "") (showJsOptStr body.currency)
                    (usdcBalanceOf data) (body.transactionId.getD "")] }
            | .resolved none =>
              let wiFallback : WalletInfo :=
                { wi with
                    lastTopUpAmount := some (body.amount.getD "")
                  , lastTopUpAt := some now }
              { memory := Function.update memory uid (some { m with walletInfo := some wiFallback })
              , response := { status := 200, success := true }
              , notifications :=
                  [.paymentFallback uid (body.amount.getD "") (showJsOptStr body.currency)
                    (body.transactionId.getD "")] }
            | .threw _ =>
              let wiFallback : WalletInfo :=
                { wi with
                    lastTopUpAmount := some (body.amount.getD "")
                  , lastTopUpAt := some now }
              { memory := Function.update memory uid (some { m with walletInfo := some wiFallback })
              , response := { status := 200, success := true }
              , notifications :=
                  [.paymentFallback uid (body.amount.getD "") (showJsOptStr body.currency)
                    (body.transactionId.getD "")] }
          | none =>
            { memory := memory, response := { status := 200, success := true }, notifications := [] }
        | none =>
          { memory := memory, response := { status := 200, success := true }, notifications := [] }
    | none =>
      { memory := memory, response := { status := 200, success := true }, notifications := [] }

/- ===================== Concrete instances used by witnesses and counterexamples ===================== -/

/-- A parsed order response whose payment status is the literal string
insufficient-funds used by the spec, with a serialized transaction present. -/
def orderRespSpecIF : OrderResponse :=
  { order :=
      { orderId := "order-1"
      , phase := "payment"
      , lineItems := []
      , quote := { status := "valid", totalPrice := { amount := "25.00", currency := "usd" } }
      , payment :=
          { status := "insufficient-funds"
          , method := "base-sepolia"
          , currency := "usdc"
          , preparation := some { serializedTransaction := some "0xdeadbeef" } } } }

/-- A parsed order response with the insufficient-funds status string the code
actually checks, with a serialized transaction present. -/
def orderRespCryptoIF : OrderResponse :=
  { order :=
      { orderId := "order-2"
      , phase := "payment"
      , lineItems := []
      , quote := { status := "valid", totalPrice := { amount := "25.00", currency := "usd" } }
      , payment :=
          { status := "crypto-payer-insufficient-funds"
          , method := "base-sepolia"
          , currency := "usdc"
          , preparation := some { serializedTransaction := some "0xabc123" } } } }

/-- A well-formed parsed order response used as a successful attempt body. -/
def orderRespW : OrderResponse :=
  { order :=
      { orderId := "order-w"
      , phase := "payment"
      , lineItems := []
      , quote := { status := "valid", totalPrice := { amount := "10.00", currency := "usd" } }
      , payment :=
          { status := "awaiting-payment"
          , method := "base-sepolia"
          , currency := "usdc"
          , preparation := some { serializedTransaction := some "0xfeed" } } } }

/-- A base order request used by the retry-loop witnesses. -/
def reqW : CreateOrderRequest :=
  { recipient := { email := "user@example.com", physicalAddress := none }
  , payment := { method := "base-sepolia", currency := "usdc", payerAddress := "0xW", receiptEmail := none }
  , lineItems := { productLocator := "amazon:B000TEST01" } }

/-- A provider oracle for which the first locator format hits the
product-not-found class and the second succeeds. -/
def postW : CreateOrderRequest → PostResult := fun r =>
  if r.lineItems.productLocator = "amazon:B000TEST01" then
    .err (.httpError (some 400) (some "Product not found"))
  else if r.lineItems.productLocator = "B000TEST01" then
    .ok orderRespW
  else
    .err .otherFailure

/-- A provider oracle for which the first locator format fails with a
non-recoverable HTTP error. -/
def postFF : CreateOrderRequest → PostResult := fun r =>
  if r.lineItems.productLocator = "amazon:B000TEST01" then
    .err (.httpError (some 503) (some "Service unavailable"))
  else
    .ok orderRespW

/-- A provider oracle for which the first attempt resolves at the HTTP level
but with a structurally invalid (schema-violating) body, and the second
attempt succeeds. -/
def postSchemaCex : CreateOrderRequest → PostResult := fun r =>
  if r.lineItems.productLocator = "amazon:B000TEST01" then
    .err .invalidShape
  else
    .ok orderRespW

/-- A wallet address used for the masking counterexample. -/
def cexWalletAddress : String := "0x1111222233334444555566667777888899990000"

/-- A valid wallet-created webhook body carrying that address. -/
def walletCreatedBodyCex : WalletCreatedBody :=
  { userId := some "42", walletAddress := some cexWalletAddress, crossmintUserId := some "cm-user-7" }

/-- An empty session state. -/
def emptySession : BotSessionState :=
  { walletAuth := fun _ => none, memory := fun _ => none }

/-- A product whose URL yields no locator under either extraction pattern. -/
def productNoAsin : AmazonProduct :=
  { title := "widget", price := "9.99", amazonUrl := "https://example.com/item" }

/-- A product with a valid Amazon detail-page URL. -/
def productOk : AmazonProduct :=
  { title := "widget", price := "9.99", amazonUrl := "https://www.amazon.com/dp/B01DFKC2SO" }

/-- A German shipping address (also without a state). -/
def addrDE : PhysicalAddress :=
  { name := "A B", line1 := "Muster 1", city := "Berlin", postalCode := "10115", country := "DE" }

/-- A fetched transaction that is already confirmed, with a nonempty pending
list left over. -/
def txConfirmed : TransactionDetailsData :=
  { status := some "confirmed"
  , approvals := some { pending := some [{ message := "challenge", signer := "signer-1" }] } }

/-- The walletInfo record of the payment-completed witness user. -/
def wiW : WalletInfo :=
  { address := "0xabc", crossmintUserId := "cm-1", createdAt := 5 }

/-- The memory record of the payment-completed witness user. -/
def memRecW : UserMemory := { walletInfo := some wiW }

/-- A memory store holding exactly that user. -/
def memW : Nat → Option UserMemory := fun uid => if uid = 42 then some memRecW else none

/-- A payment-completed webhook body with all required fields present. -/
def pcBodyW : PaymentCompletedBody :=
  { sessionId := some "sess-1", amount := some "25", currency := some "USD"
  , transactionId := some "tx-99", userId := some 42 }

/- ===================== Theorems ===================== -/

/-- C10: there is a URL, the bare domain plus /dp/ID form, that the locator
extractor accepts (returning amazon:B01DFKC2SO) while validateAmazonUrl
rejects it: URL pre-validation is not implied by successful extraction. -/
theorem extract_vs_validate_divergence :
    extractProductLocator "https://www.amazon.com/dp/B01DFKC2SO" = some "amazon:B01DFKC2SO" ∧
    validateAmazonUrl "https://www.amazon.com/dp/B01DFKC2SO" = false := by
  decide

/-- C1 counterexample: a parsed order response whose payment.status equals the
literal string insufficient-funds, with a serialized transaction present, is
classified Succeeded with that transaction returned, not InsufficientFunds:
the code checks the string crypto-payer-insufficient-funds instead. -/
theorem orderClassification_spec_literal_cex :
    orderRespSpecIF.order.payment.status = "insufficient-funds" ∧
    classifyOrderResponse orderRespSpecIF = .succeeded "0xdeadbeef" := by
  decide

/-- C1 (amended): for every parsed order response whose payment.status equals
crypto-payer-insufficient-funds, outcome classification yields the
InsufficientFunds outcome and never Succeeded, so no serialized transaction is
returned, even if one is present in the payment preparation. -/
theorem orderClassification_insufficient_funds (resp : OrderResponse)
    (h : resp.order.payment.status = "crypto-payer-insufficient-funds") :
    classifyOrderResponse resp = .insufficientFunds ∧
    ∀ tx, classifyOrderResponse resp ≠ .succeeded tx := by
  unfold classifyOrderResponse
  rw [h]
  simp

/-- C1 witness: the amended theorem applied to a concrete order response that
has the crypto-payer-insufficient-funds status and a serialized transaction. -/
theorem orderClassification_insufficient_funds_witness :
    orderRespCryptoIF.order.payment.status = "crypto-payer-insufficient-funds" ∧
    classifyOrderResponse orderRespCryptoIF = .insufficientFunds :=
  ⟨by decide, (orderClassification_insufficient_funds orderRespCryptoIF (by decide)).1⟩

/-- C4 (code bug evaluation): for an accepted wallet-created webhook with a
valid address, the walletAddress field of the 200 response is the first eight
characters, then three dots, then the ENTIRE address: substring(-6) clamps the
negative index to zero, so the displayed string contains the full wallet
address instead of a fixed-length suffix. -/
theorem walletCreated_response_contains_full_address :
    maskedWalletAddress cexWalletAddress = "0x111122" ++ "..." ++ cexWalletAddress ∧
    stringContainsSeg (maskedWalletAddress cexWalletAddress) cexWalletAddress = true ∧
    (walletCreatedHandler walletCreatedBodyCex 1000 emptySession).response.status = 200 ∧
    (walletCreatedHandler walletCreatedBodyCex 1000 emptySession).response.maskedWalletAddress =
      some (maskedWalletAddress cexWalletAddress) ∧
    (walletCreatedHandler walletCreatedBodyCex 1000 emptySession).notifications =
      [.walletCreated 42 (maskedWalletAddress cexWalletAddress)] := by
  decide

/-- C6: the transaction-signing operation is a total function of the HTTP or
network outcome (the try/catch returns a value on every path, so no exception
escapes the boundary); it returns success exactly when the HTTP status is 200
or 201, regardless of the embedded transaction status, and carries a
human-readable error message exactly when it fails. -/
theorem signOrderTransaction_classification (o : HttpOutcome) :
    (signOrderTransaction o).success = httpOutcomeAccepted o ∧
    (signOrderTransaction o).error.isSome = !(signOrderTransaction o).success := by
  cases o with
  | networkFailure msg => simp [signOrderTransaction, httpOutcomeAccepted]
  | response st stText data =>
    by_cases h200 : st = 200 ∨ st = 201
    · have h2xx : 200 ≤ st ∧ st < 300 := by rcases h200 with h | h <;> omega
      rcases h200 with h | h <;>
        simp [signOrderTransaction, httpOutcomeAccepted, h2xx, h]
    · have h1 : st ≠ 200 := fun hh => h200 (Or.inl hh)
      have h2 : st ≠ 201 := fun hh => h200 (Or.inr hh)
      by_cases h2xx : 200 ≤ st ∧ st < 300
      · simp [signOrderTransaction, httpOutcomeAccepted, h2xx, h200, h1, h2]
      · simp [signOrderTransaction, httpOutcomeAccepted, h2xx, h1, h2]

/-- C9: on a fetched transaction, the pending-approval result is returned
exactly when the status is awaiting-approval and the pending-approvals list is
nonempty, and then it carries the message and signer of the FIRST entry; on
any transaction whose status is not awaiting-approval the result is never a
pending approval but the informational result reporting the current status. -/
theorem fetchPendingApproval_characterization (t : TransactionDetailsData) :
    ((t.status = some "awaiting-approval" ∧ txPendingList t ≠ []) →
      ∃ entry, (txPendingList t).head? = some entry ∧
        classifyTransactionDetails t = .pendingApprovalInfo t entry.message entry.signer) ∧
    (∀ m s, classifyTransactionDetails t = .pendingApprovalInfo t m s →
      t.status = some "awaiting-approval" ∧ txPendingList t ≠ [] ∧
        (txPendingList t).head? = some { message := m, signer := s }) ∧
    (t.status ≠ some "awaiting-approval" →
      classifyTransactionDetails t =
        .notAwaiting t
          ("Transaction is not awaiting approval. Current status: " ++ showJsOptStr t.status)) := by
  by_cases hst : t.status = some "awaiting-approval"
  · cases hl : txPendingList t with
    | nil =>
      refine ⟨fun h => absurd rfl h.2, fun m s hc => ?_, fun h => absurd hst h⟩
      rw [classifyTransactionDetails, if_pos hst, hl] at hc
      exact absurd hc (by simp)
    | cons e rest =>
      refine ⟨fun _ => ⟨e, by simp [hl], ?_⟩, fun m s hc => ?_, fun h => absurd hst h⟩
      · rw [classifyTransactionDetails, if_pos hst, hl]
      · rw [classifyTransactionDetails, if_pos hst, hl] at hc
        cases hc
        simp [hst, hl]
  · refine ⟨fun h => absurd h.1 hst, fun m s hc => ?_, fun _ => ?_⟩
    · rw [classifyTransactionDetails, if_neg hst] at hc
      exact absurd hc (by simp)
    · rw [classifyTransactionDetails, if_neg hst]

/-- C9 witness: the characterization applied to a concrete fetched transaction
whose status is confirmed: no pending-approval value is returned, only the
informational status report. -/
theorem fetchPendingApproval_characterization_witness :
    classifyTransactionDetails txConfirmed =
      .notAwaiting txConfirmed "Transaction is not awaiting approval. Current status: confirmed" :=
  (fetchPendingApproval_characterization txConfirmed).2.2 (by decide)

/-- Helper: a block of candidates that all produce continuing errors is
traversed completely, contributing exactly its own requests, and the loop then
proceeds to the remaining candidates with some recorded last error. -/
theorem retryTrace_append (post : CreateOrderRequest → PostResult)
    (req : CreateOrderRequest) (l1 : List String)
    (hcont : ∀ x ∈ l1, postContinues (post (withLocator req x)) = true) :
    ∀ le l2, ∃ le2,
      createOrderRetryTrace post req le (l1 ++ l2) =
        ((createOrderRetryTrace post req le2 l2).1,
          l1.map (withLocator req) ++ (createOrderRetryTrace post req le2 l2).2) := by
  induction l1 with
  | nil => exact fun le l2 => ⟨le, by simp⟩
  | cons x xs ih =>
    intro le l2
    have hx := hcont x (List.mem_cons_self x xs)
    cases hp : post (withLocator req x) with
    | ok b => rw [hp] at hx; exact absurd hx (by simp [postContinues])
    | err e =>
      have he : errContinues e = true := by
        rw [hp] at hx; simpa [postContinues] using hx
      obtain ⟨le2, h2⟩ := ih (fun y hy => hcont y (List.mem_cons_of_mem _ hy)) (some e) l2
      refine ⟨le2, ?_⟩
      simp only [List.cons_append, createOrderRetryTrace, hp, he, if_true, List.map_cons]
      rw [show xs.append l2 = xs ++ l2 from rfl, h2]

/-- C3: the order-submission loop stops at the first successful attempt
(HTTP-level success with a schema-valid body): whenever every candidate before
loc yields a continuing error and the attempt for loc parses successfully, the
loop returns that parsed body and the requests issued are exactly those for
the earlier candidates and loc; no request is issued for any remaining
candidate. -/
theorem createOrder_stops_at_first_success (post : CreateOrderRequest → PostResult)
    (req : CreateOrderRequest) (l1 l2 : List String) (loc : String) (b : OrderResponse)
    (hcont : ∀ x ∈ l1, postContinues (post (withLocator req x)) = true)
    (hok : post (withLocator req loc) = .ok b) :
    createOrderWithRetry post req (l1 ++ loc :: l2) = .success b ∧
    createOrderRequestsIssued post req (l1 ++ loc :: l2) = (l1 ++ [loc]).map (withLocator req) := by
  obtain ⟨le2, h⟩ := retryTrace_append post req l1 hcont none (loc :: l2)
  constructor
  · rw [createOrderWithRetry, h]
    simp [createOrderRetryTrace, hok]
  · rw [createOrderRequestsIssued, h]
    simp [createOrderRetryTrace, hok]

/-- C3 witness: with a provider for which the first locator format is in the
product-not-found class and the second parses successfully, the loop on the
candidate list stops at the second candidate with the parsed body, and a
remaining third candidate is never requested. -/
theorem createOrder_stops_at_first_success_witness :
    createOrderWithRetry postW reqW (["amazon:B000TEST01"] ++ "B000TEST01" :: ["extra-1"]) =
      .success orderRespW ∧
    createOrderRequestsIssued postW reqW (["amazon:B000TEST01"] ++ "B000TEST01" :: ["extra-1"]) =
      (["amazon:B000TEST01"] ++ ["B000TEST01"]).map (withLocator reqW) :=
  createOrder_stops_at_first_success postW reqW ["amazon:B000TEST01"] ["extra-1"]
    "B000TEST01" orderRespW (by decide) (by decide)

/-- C2 counterexample: an attempt that resolves at the HTTP level but returns
a structurally invalid (schema-violating) body is NOT an axios error, so the
loop does not stop: it records the error, issues a request for the next
candidate, and here even finishes with success, never surfacing the schema
error. This contradicts the claim that every non-product-not-found error
class aborts the loop immediately. -/
theorem createOrder_schema_error_continues_cex :
    postSchemaCex (withLocator reqW "amazon:B000TEST01") = .err .invalidShape ∧
    errContinues (.httpError (some 400) (some "Product not found")) = true ∧
    createOrderRequestsIssued postSchemaCex reqW ["amazon:B000TEST01", "B000TEST01"] =
      [withLocator reqW "amazon:B000TEST01", withLocator reqW "B000TEST01"] ∧
    createOrderWithRetry postSchemaCex reqW ["amazon:B000TEST01", "B000TEST01"] =
      .success orderRespW := by
  decide

/-- C2 (amended): when an attempt fails with an HTTP (axios) error outside the
product-not-found class (status 400 with a message containing Product not
found), the loop stops immediately and rethrows that error, issuing no request
for any remaining candidate. Errors that are not axios errors, such as a
schema-violating response body, instead record the last error and continue
with the next candidate. -/
theorem createOrder_failfast_on_http_error (post : CreateOrderRequest → PostResult)
    (req : CreateOrderRequest) (l1 l2 : List String) (loc : String)
    (st : Option Nat) (msg : Option String)
    (hcont : ∀ x ∈ l1, postContinues (post (withLocator req x)) = true)
    (herr : post (withLocator req loc) = .err (.httpError st msg))
    (hstop : errContinues (.httpError st msg) = false) :
    createOrderWithRetry post req (l1 ++ loc :: l2) = .thrown (.httpError st msg) ∧
    createOrderRequestsIssued post req (l1 ++ loc :: l2) = (l1 ++ [loc]).map (withLocator req) := by
  obtain ⟨le2, h⟩ := retryTrace_append post req l1 hcont none (loc :: l2)
  constructor
  · rw [createOrderWithRetry, h]
    simp [createOrderRetryTrace, herr, hstop]
  · rw [createOrderRequestsIssued, h]
    simp [createOrderRetryTrace, herr, hstop]

/-- C2 witness: a 503 on the first candidate aborts the loop at once: the
error is rethrown and the remaining candidate is never requested. -/
theorem createOrder_failfast_on_http_error_witness :
    createOrderWithRetry postFF reqW ([] ++ "amazon:B000TEST01" :: ["B000TEST01"]) =
      .thrown (.httpError (some 503) (some "Service unavailable")) ∧
    createOrderRequestsIssued postFF reqW ([] ++ "amazon:B000TEST01" :: ["B000TEST01"]) =
      ([] ++ ["amazon:B000TEST01"]).map (withLocator reqW) :=
  createOrder_failfast_on_http_error postFF reqW [] ["B000TEST01"] "amazon:B000TEST01"
    (some 503) (some "Service unavailable") (by decide) (by decide) (by decide)

/-- C8 counterexample: a call with a non-US address whose product URL yields no
locator fails with the locator-extraction error, not with an address-rejection
error: locator extraction precedes the address checks in the code, so the
claim that every bad-address call fails WITH an address-rejection error does
not hold as stated (no network request is issued either way). -/
theorem orderBuild_locator_error_cex :
    addrDE.country ≠ "US" ∧
    orderBuildPhase productNoAsin "u@example.com" "0xW" addrDE = .fail .locatorExtractionFailed ∧
    BuildError.isAddressRejection .locatorExtractionFailed = false := by
  decide

/-- C8 (amended): for every order-build call whose shipping address has a
country other than US, or a missing (falsy) state, the build phase never
reaches the network loop, so no create-order request is issued; and whenever
the locator and ASIN extraction from the product URL succeeds, the failure is
one of the two address-rejection errors. When extraction fails, the failure is
the locator-extraction error, still before any network call. -/
theorem orderBuild_bad_address_no_network (p : AmazonProduct) (em wa : String)
    (addr : PhysicalAddress)
    (hbad : addr.country ≠ "US" ∨ jsTruthyOptStr addr.state = false) :
    (∀ req vars, orderBuildPhase p em wa addr ≠ .proceed req vars) ∧
    ((asinSearchDpGp p.amazonUrl.toList).isSome →
      ∃ e, orderBuildPhase p em wa addr = .fail e ∧ e.isAddressRejection = true) := by
  unfold orderBuildPhase
  cases hloc : extractProductLocator p.amazonUrl with
  | none =>
    refine ⟨fun req vars => by simp, fun hsome => ?_⟩
    obtain ⟨a, ha⟩ := Option.isSome_iff_exists.mp hsome
    rw [extractProductLocator, ha] at hloc
    exact absurd hloc (by simp)
  | some loc =>
    cases has : asinSearchDpGp p.amazonUrl.toList with
    | none => exact ⟨fun req vars => by simp, fun hsome => by simp [has] at hsome⟩
    | some asinChars =>
      by_cases hc : addr.country = "US"
      · have hst : jsTruthyOptStr addr.state = false := by
          rcases hbad with h | h
          · exact absurd hc h
          · exact h
        refine ⟨fun req vars => ?_, fun _ => ⟨.missingState, ?_, rfl⟩⟩ <;>
          simp [hc, hst]
      · refine ⟨fun req vars => ?_, fun _ => ⟨.nonUsAddress, ?_, rfl⟩⟩ <;>
          simp [hc]

/-- C8 witness: the amended theorem applied to a valid Amazon URL and the
German address: the failure is an address-rejection error. -/
theorem orderBuild_bad_address_no_network_witness :
    ∃ e, orderBuildPhase productOk "u@example.com" "0xW" addrDE = .fail e ∧
      e.isAddressRejection = true :=
  (orderBuild_bad_address_no_network productOk "u@example.com" "0xW" addrDE
    (Or.inl (by decide))).2 (by decide)

/-- C5: for every payment-completed webhook request with the required fields
present (truthy sessionId, amount and transactionId), a truthy userId, and a
session memory record with wallet info for that user, an unresolvable balance
lookup (failed or returning nothing) still yields the 200 response with
success true — never a 500 — and the fallback notification is still sent. -/
theorem paymentCompleted_fallback_success (body : PaymentCompletedBody)
    (bo : BalanceFetchOutcome) (now : Nat) (mem : Nat → Option UserMemory)
    (uid : Nat) (m : UserMemory) (wi : WalletInfo)
    (hS : jsTruthyOptStr body.sessionId = true)
    (hA : jsTruthyOptStr body.amount = true)
    (hT : jsTruthyOptStr body.transactionId = true)
    (hU : body.userId = some uid) (hU0 : uid ≠ 0)
    (hM : mem uid = some m) (hW : m.walletInfo = some wi)
    (hB : balanceUnresolvable bo = true) :
    (paymentCompletedHandler body bo now mem).response.status = 200 ∧
    (paymentCompletedHandler body bo now mem).response.success = true ∧
    (paymentCompletedHandler body bo now mem).response.status ≠ 500 ∧
    (paymentCompletedHandler body bo now mem).notifications =
      [.paymentFallback uid (body.amount.getD "") (showJsOptStr body.currency)
        (body.transactionId.getD "")] := by
  cases bo with
  | resolved d =>
    cases d with
    | none => simp [paymentCompletedHandler, hS, hA, hT, hU, hU0, hM, hW]
    | some data => simp [balanceUnresolvable] at hB
  | threw msg => simp [paymentCompletedHandler, hS, hA, hT, hU, hU0, hM, hW]

/-- C5 witness: the theorem applied to a concrete validated request with a
balance fetch that resolves to nothing. -/
theorem paymentCompleted_fallback_success_witness :
    (paymentCompletedHandler pcBodyW (.resolved none) 100 memW).response.status = 200 ∧
    (paymentCompletedHandler pcBodyW (.resolved none) 100 memW).response.success = true ∧
    (paymentCompletedHandler pcBodyW (.resolved none) 100 memW).response.status ≠ 500 ∧
    (paymentCompletedHandler pcBodyW (.resolved none) 100 memW).notifications =
      [.paymentFallback 42 "25" "USD" "tx-99"] :=
  paymentCompleted_fallback_success pcBodyW (.resolved none) 100 memW 42 memRecW wiW
    (by decide) (by decide) (by decide) (by decide) (by decide) (by decide) (by decide)
    (by decide)

/-- Helper: the wallet-created state mutation is idempotent: applying it a
second time with the same user, auth record and wallet info leaves the state
unchanged. -/
theorem walletCreatedStateUpdate_idem (uid : Nat) (wd : WalletAuthData)
    (wi : WalletInfo) (s : BotSessionState) :
    walletCreatedStateUpdate uid wd wi (walletCreatedStateUpdate uid wd wi s) =
      walletCreatedStateUpdate uid wd wi s := by
  cases s with
  | mk walletAuth memory =>
    unfold walletCreatedStateUpdate
    cases hm : memory uid with
    | none => simp [hm, Function.update_idem]
    | some m => simp [hm, Function.update_same, Function.update_idem]

/-- C7: delivering the same wallet-created webhook event twice (same request
body, same receipt timestamp) leaves the per-user session state — the
wallet-service auth record and the session-memory wallet info — identical to
the state after a single delivery: applying the same update twice produces
the same end state. -/
theorem walletCreated_duplicate_delivery_idem (body : WalletCreatedBody) (now : Nat)
    (s : BotSessionState) :
    (walletCreatedHandler body now (walletCreatedHandler body now s).state).state =
      (walletCreatedHandler body now s).state := by
  by_cases h1 : (!(jsTruthyOptStr body.userId && jsTruthyOptStr body.walletAddress &&
      jsTruthyOptStr body.crossmintUserId)) = true
  · simp [walletCreatedHandler, h1]
  · cases hn : jsNumericId (body.userId.getD "") with
    | none => simp [walletCreatedHandler, h1, hn]
    | some numericUserId =>
      simp only [walletCreatedHandler, h1, hn, Bool.false_eq_true, if_false]
      exact walletCreatedStateUpdate_idem _ _ _ _
